import Mathlib

/-!
Verification of tools/hss-payload-generator/generate_payload.c (HSS boot-image
payload generator).  The C unit is embedded shallowly: machine-size arithmetic
is modelled over Nat (file sizes and offsets stay far below 2^64 in every use),
the process-wide builder globals (chunkTable, ziChunkTable, numChunks,
numZIChunks, bootImage) become an explicit GenState threaded through the
builder calls, and the output FILE stream becomes a list of written items plus
an explicit cursor position.
-/

/-- Alignment boundary, C macro PAD_SIZE (generate_payload.c line 94). -/
def PAD_SIZE : Nat := 8

/-- C function calculate_padding (generate_payload.c lines 127-138):
result = (((size + (pad - 1)) / pad) * pad) - size. -/
def calculate_padding (size pad : Nat) : Nat :=
  (((size + (pad - 1)) / pad) * pad) - size

/-- Chunk descriptor, struct HSS_BootChunkDesc.  Modelled from the spec: the
struct is declared in hss_types.h which is not under src/; the fields are the
ones generate_payload.c reads and writes (owner, loadAddr, execAddr, size,
crc32), matching the spec of a chunk descriptor. -/
structure HSS_BootChunkDesc where
  owner : Nat
  loadAddr : Nat
  execAddr : Nat
  size : Nat
  crc32 : Nat
deriving DecidableEq, Repr

/-- ZI-chunk descriptor, struct HSS_BootZIChunkDesc.  Modelled from the spec:
declared in hss_types.h (not under src/); fields owner, execAddr, size as used
by generate_payload.c and described in the spec. -/
structure HSS_BootZIChunkDesc where
  owner : Nat
  execAddr : Nat
  size : Nat
deriving DecidableEq, Repr

/-- Signature block of the header: a fixed-size digest (48 bytes) and a raw
two-integer signature (96 bytes).  Modelled from the spec (struct in
hss_types.h, not under src/). -/
structure HSS_Signature where
  digest : List Nat
  ecdsaSig : List Nat
deriving DecidableEq, Repr

/-- Boot image header record, struct HSS_BootImage.  Modelled from the spec:
declared in hss_types.h (not under src/); the fields are the ones the spec
lists and generate_payload.c manipulates. -/
structure HSS_BootImage where
  magic : Nat
  version : Nat
  chunkTableOffset : Nat
  ziChunkTableOffset : Nat
  headerLength : Nat
  bootImageLength : Nat
  headerCrc : Nat
  signature : HSS_Signature
deriving DecidableEq, Repr

/-- Modelled from the spec: the boot-image magic constant written by
generate_init; mHSS_BOOT_MAGIC is defined in hss_types.h, not under src/. -/
def mHSS_BOOT_MAGIC : Nat := 0xB007C0DE

/-- Modelled from the spec: the boot-image format version constant written by
generate_init; mHSS_BOOT_VERSION is defined in hss_types.h, not under src/. -/
def mHSS_BOOT_VERSION : Nat := 1

/-- Byte sizes of the three fixed-layout records.  The C sizeof values come
from hss_types.h (not under src/), so the development is parameterised over
them; every theorem holds for arbitrary sizes. -/
structure Sizes where
  szBootImage : Nat
  szChunkDesc : Nat
  szZIChunkDesc : Nat
deriving DecidableEq, Repr

/-- The builder's process-wide state: the globals chunkTable (each entry a
descriptor plus its owned buffer, struct chunkTableEntry), ziChunkTable, and
the singleton header record bootImage.  numChunks and numZIChunks are the list
lengths. -/
structure GenState where
  chunkTable : List (HSS_BootChunkDesc × List Nat)
  ziChunkTable : List HSS_BootZIChunkDesc
  bootImage : HSS_BootImage
deriving DecidableEq, Repr

/-- The zero-initialised starting state: the C globals chunkTable = NULL,
numChunks = 0, ziChunkTable = NULL, numZIChunks = 0; the extern global
struct HSS_BootImage bootImage is defined in another translation unit (not
under src/) and, being a C global, starts zero-initialised (modelled from the
spec: signature fields present but zero-valued before signing). -/
def initGenState : GenState :=
  { chunkTable := []
    ziChunkTable := []
    bootImage :=
      { magic := 0
        version := 0
        chunkTableOffset := 0
        ziChunkTableOffset := 0
        headerLength := 0
        bootImageLength := 0
        headerCrc := 0
        signature := { digest := List.replicate 48 0, ecdsaSig := List.replicate 96 0 } } }

/-- C function generate_add_chunk (generate_payload.c lines 451-480): if
chunk.size is non-zero the entry (descriptor, buffer) is appended to
chunkTable and numChunks is incremented; otherwise the call only logs and
skips.  Returns (new state, value of numChunks returned to the caller). -/
def generate_add_chunk (st : GenState) (chunk : HSS_BootChunkDesc) (pBuffer : List Nat) :
    GenState × Nat :=
  if chunk.size ≠ 0 then
    let st' : GenState := { st with chunkTable := st.chunkTable ++ [(chunk, pBuffer)] }
    (st', st'.chunkTable.length)
  else
    (st, st.chunkTable.length)

/-- C function generate_add_ziChunk (generate_payload.c lines 482-503):
unconditionally appends and returns the new count. -/
def generate_add_ziChunk (st : GenState) (ziChunk : HSS_BootZIChunkDesc) :
    GenState × Nat :=
  let st' : GenState := { st with ziChunkTable := st.ziChunkTable ++ [ziChunk] }
  (st', st'.ziChunkTable.length)

/-- C function generate_init (generate_payload.c lines 505-509): sets
bootImage.magic and bootImage.version. -/
def generate_init (st : GenState) : GenState :=
  { st with bootImage :=
      { st.bootImage with magic := mHSS_BOOT_MAGIC, version := mHSS_BOOT_VERSION } }

/-- One call made by the external image-construction collaborator against the
builder API. -/
inductive BuilderCall where
  | addChunk (chunk : HSS_BootChunkDesc) (pBuffer : List Nat)
  | addZIChunk (ziChunk : HSS_BootZIChunkDesc)
deriving DecidableEq, Repr

/-- Run a sequence of builder calls against a state. -/
def runCalls (st : GenState) : List BuilderCall → GenState
  | [] => st
  | BuilderCall.addChunk c b :: rest => runCalls (generate_add_chunk st c b).1 rest
  | BuilderCall.addZIChunk z :: rest => runCalls (generate_add_ziChunk st z).1 rest

/-- Number of builder calls that successfully add a chunk (size non-zero). -/
def countRealChunkCalls : List BuilderCall → Nat
  | [] => 0
  | BuilderCall.addChunk c _ :: rest =>
      (if c.size ≠ 0 then 1 else 0) + countRealChunkCalls rest
  | BuilderCall.addZIChunk _ :: rest => countRealChunkCalls rest

/-- Number of builder calls that add a ZI chunk. -/
def countZICalls : List BuilderCall → Nat
  | [] => 0
  | BuilderCall.addChunk _ _ :: rest => countZICalls rest
  | BuilderCall.addZIChunk _ :: rest => 1 + countZICalls rest

/-- One item written to the output stream, together with its byte width under
a given Sizes environment.  The FILE stream of the C program becomes a list of
these items; padByte is a single zero byte emitted by write_pad. -/
inductive FileItem where
  | headerRec (h : HSS_BootImage)
  | chunkRec (c : HSS_BootChunkDesc)
  | ziRec (z : HSS_BootZIChunkDesc)
  | blob (bytes : List Nat)
  | padByte
deriving DecidableEq, Repr

/-- Byte width of a written item. -/
def itemSize (sz : Sizes) : FileItem → Nat
  | FileItem.headerRec _ => sz.szBootImage
  | FileItem.chunkRec _ => sz.szChunkDesc
  | FileItem.ziRec _ => sz.szZIChunkDesc
  | FileItem.blob bytes => bytes.length
  | FileItem.padByte => 1

/-- Total byte length of a written file. -/
def fileSize (sz : Sizes) (f : List FileItem) : Nat :=
  (f.map (itemSize sz)).sum

/-- Number of padding bytes written after the header record:
calculate_padding(sizeof(struct HSS_BootImage), PAD_SIZE). -/
def headerPadCount (sz : Sizes) : Nat :=
  calculate_padding sz.szBootImage PAD_SIZE

/-- The items generate_header emits at offset 0: the header record followed by
its zero padding (generate_payload.c lines 156-179). -/
def headerItems (sz : Sizes) (h : HSS_BootImage) : List FileItem :=
  FileItem.headerRec h :: List.replicate (headerPadCount sz) FileItem.padByte

/-- State of the serializer: the output file contents, the stream cursor
(ftello), the header record, both tables, and the three running padded-size
globals bootImagePaddedSize, chunkTablePaddedSize, ziChunkTablePaddedSize. -/
structure SState where
  file : List FileItem
  pos : Nat
  bootImage : HSS_BootImage
  chunkTable : List (HSS_BootChunkDesc × List Nat)
  ziChunkTable : List HSS_BootZIChunkDesc
  bootImagePaddedSize : Nat
  chunkTablePaddedSize : Nat
  ziChunkTablePaddedSize : Nat
deriving DecidableEq, Repr

/-- Serializer state at the top of generate_payload, after fopen: empty file,
cursor at 0, the builder's tables and header record. -/
def initSState (st : GenState) : SState :=
  { file := []
    pos := 0
    bootImage := st.bootImage
    chunkTable := st.chunkTable
    ziChunkTable := st.ziChunkTable
    bootImagePaddedSize := 0
    chunkTablePaddedSize := 0
    ziChunkTablePaddedSize := 0 }

/-- C function generate_header (generate_payload.c lines 156-179): seek to
offset 0, write the header record and its padding (overwriting the previous
header region, which has the same width), leaving the cursor right after the
padding; bootImagePaddedSize is set from ftello. -/
def generate_header_step (sz : Sizes) (s : SState) : SState :=
  { s with
      file := headerItems sz s.bootImage ++ s.file.drop (1 + headerPadCount sz)
      pos := sz.szBootImage + headerPadCount sz
      bootImagePaddedSize := sz.szBootImage + headerPadCount sz }

/-- The load address assigned to a chunk inside the generate_chunks loop
(generate_payload.c lines 199-208), term by term as in the C. -/
def chunkLoadAddr (sz : Sizes) (chunkTableOffset numChunks numZIChunks cumulativeBlobSize : Nat) : Nat :=
  chunkTableOffset
  + numChunks * sz.szChunkDesc
  + sz.szChunkDesc
  + calculate_padding (sz.szChunkDesc * (numChunks + 1)) PAD_SIZE
  + numZIChunks * sz.szZIChunkDesc
  + sz.szZIChunkDesc
  + calculate_padding (sz.szZIChunkDesc * (numZIChunks + 1)) PAD_SIZE
  + cumulativeBlobSize
  + calculate_padding cumulativeBlobSize PAD_SIZE

/-- The generate_chunks loop (generate_payload.c lines 196-223): walks the
chunk table carrying cumulativeBlobSize (starting at 0), stores the computed
loadAddr into each entry, and after each entry adds size plus its individual
padding to the running total. -/
def assignLoadAddrs (sz : Sizes) (cto numChunks numZIChunks : Nat) :
    List (HSS_BootChunkDesc × List Nat) → Nat → List (HSS_BootChunkDesc × List Nat)
  | [], _ => []
  | e :: rest, cum =>
      ({ e.1 with loadAddr := chunkLoadAddr sz cto numChunks numZIChunks cum }, e.2)
        :: assignLoadAddrs sz cto numChunks numZIChunks rest
             (cum + (e.1.size + calculate_padding e.1.size PAD_SIZE))

/-- The all-zero sentinel chunk descriptor written after the real entries
(generate_payload.c lines 226-232). -/
def sentinelChunk : HSS_BootChunkDesc :=
  { owner := 0, loadAddr := 0, execAddr := 0, size := 0, crc32 := 0 }

/-- The all-zero sentinel ZI-chunk descriptor (generate_payload.c lines
275-279). -/
def sentinelZIChunk : HSS_BootZIChunkDesc :=
  { owner := 0, execAddr := 0, size := 0 }

/-- C function generate_chunks (generate_payload.c lines 181-244): records the
cursor as chunkTableOffset, assigns every chunk its load address while writing
the descriptors, writes the sentinel, pads the table to PAD_SIZE, and records
chunkTablePaddedSize = ftello - chunkTableOffset. -/
def generate_chunks_step (sz : Sizes) (s : SState) : SState :=
  let cto := s.pos
  let n := s.chunkTable.length
  let m := s.ziChunkTable.length
  let newTable := assignLoadAddrs sz cto n m s.chunkTable 0
  let padN := calculate_padding (sz.szChunkDesc * (n + 1)) PAD_SIZE
  let items := (newTable.map fun e => FileItem.chunkRec e.1)
      ++ [FileItem.chunkRec sentinelChunk]
      ++ List.replicate padN FileItem.padByte
  let newPos := s.pos + sz.szChunkDesc * n + sz.szChunkDesc + padN
  { s with
      bootImage := { s.bootImage with chunkTableOffset := cto }
      chunkTable := newTable
      file := s.file ++ items
      pos := newPos
      chunkTablePaddedSize := newPos - cto }

/-- C function generate_ziChunks (generate_payload.c lines 246-291): records
the cursor as ziChunkTableOffset, writes the ZI descriptors, the sentinel and
the padding, and records ziChunkTablePaddedSize = ftello - ziChunkTableOffset. -/
def generate_ziChunks_step (sz : Sizes) (s : SState) : SState :=
  let zto := s.pos
  let m := s.ziChunkTable.length
  let padM := calculate_padding (sz.szZIChunkDesc * (m + 1)) PAD_SIZE
  let items := (s.ziChunkTable.map fun z => FileItem.ziRec z)
      ++ [FileItem.ziRec sentinelZIChunk]
      ++ List.replicate padM FileItem.padByte
  let newPos := s.pos + sz.szZIChunkDesc * m + sz.szZIChunkDesc + padM
  { s with
      bootImage := { s.bootImage with ziChunkTableOffset := zto }
      file := s.file ++ items
      pos := newPos
      ziChunkTablePaddedSize := newPos - zto }

/-- C function generate_blobs (generate_payload.c lines 293-324): writes each
chunk's buffer (size bytes from it) followed by the blob's individual padding;
the cursor advances by size + padding per chunk. -/
def generate_blobs_step (s : SState) : SState :=
  let items := s.chunkTable.flatMap fun e =>
      FileItem.blob (e.2.take e.1.size)
        :: List.replicate (calculate_padding e.1.size PAD_SIZE) FileItem.padByte
  let delta := (s.chunkTable.map fun e =>
      e.1.size + calculate_padding e.1.size PAD_SIZE).sum
  { s with file := s.file ++ items, pos := s.pos + delta }

/-- Result of one run of generate_payload: the final serializer state plus,
for the integrity stage, the exact header record the CRC was computed over and
the exact file contents the SHA384 digest was computed over (when signing). -/
structure BuildResult where
  final : SState
  crcInput : HSS_BootImage
  digestInput : Option (List FileItem)
deriving DecidableEq, Repr

/-- C function generate_payload (generate_payload.c lines 415-449) together
with sign_payload (lines 326-413).  Parameters crc, sha and ecdsaSign stand
for the external primitives CRC32_calculate, SHA384 and the ECDSA signing
sequence (opaque cryptographic collaborators; the theorems hold for every
choice).  signing is true when a private-key filename is supplied.  Steps, in
source order: generate_header; generate_chunks; generate_ziChunks; finalize
headerLength from ftello; generate_blobs; finalize bootImageLength from
ftello; compute headerCrc over the header record; rewrite the header; then,
if signing, read back the whole file, hash it, store the digest, sign the
digest, store the 96-byte raw signature, and rewrite the header once more. -/
def generate_payload_model (sz : Sizes) (crc : HSS_BootImage → Nat)
    (sha : List FileItem → List Nat) (ecdsaSign : List Nat → List Nat)
    (signing : Bool) (st : GenState) : BuildResult :=
  let s1 := generate_header_step sz (initSState st)
  let s2 := generate_chunks_step sz s1
  let s3 := generate_ziChunks_step sz s2
  let s4 := { s3 with bootImage := { s3.bootImage with headerLength := s3.pos } }
  let s5 := generate_blobs_step s4
  let s6 := { s5 with bootImage := { s5.bootImage with bootImageLength := s5.pos } }
  let crcIn := s6.bootImage
  let s7 := { s6 with bootImage := { s6.bootImage with headerCrc := crc crcIn } }
  let s8 := generate_header_step sz s7
  if signing then
    let digestIn := s8.file
    let digest := sha digestIn
    let s9 := { s8 with bootImage :=
        { s8.bootImage with signature := { s8.bootImage.signature with digest := digest } } }
    let sigBuf := ecdsaSign digest
    let s10 := { s9 with bootImage :=
        { s9.bootImage with signature := { s9.bootImage.signature with ecdsaSig := sigBuf } } }
    let s11 := generate_header_step sz s10
    { final := s11, crcInput := crcIn, digestInput := some digestIn }
  else
    { final := s8, crcInput := crcIn, digestInput := none }

lemma calculate_padding_mod8 (s : Nat) : (s + calculate_padding s PAD_SIZE) % 8 = 0 := by
  simp only [calculate_padding, PAD_SIZE]
  omega

lemma calculate_padding_eq_zero_of_mod8 (s : Nat) (h : s % 8 = 0) :
    calculate_padding s PAD_SIZE = 0 := by
  simp only [calculate_padding, PAD_SIZE]
  omega

lemma sum_padded_spans_mod8 (l : List (HSS_BootChunkDesc × List Nat)) :
    ((l.map fun e => e.1.size + calculate_padding e.1.size PAD_SIZE).sum) % 8 = 0 := by
  induction l with
  | nil => simp
  | cons e rest ih =>
    have h := calculate_padding_mod8 e.1.size
    simp only [List.map_cons, List.sum_cons]
    omega

lemma runCalls_append (st : GenState) (l1 l2 : List BuilderCall) :
    runCalls st (l1 ++ l2) = runCalls (runCalls st l1) l2 := by
  induction l1 generalizing st with
  | nil => simp [runCalls]
  | cons a t ih => cases a <;> simp [runCalls, ih]

/-- Claim C8: for every size and every non-zero boundary, calculate_padding
returns the smallest non-negative r such that size + r is a multiple of the
boundary; in particular the result is less than the boundary and
(size + result) mod boundary = 0. -/
theorem hss_C8_calculate_padding_minimal (size pad : Nat) (h : pad ≠ 0) :
    calculate_padding size pad < pad
    ∧ (size + calculate_padding size pad) % pad = 0
    ∧ ∀ r : Nat, (size + r) % pad = 0 → calculate_padding size pad ≤ r := by
  have hp : 0 < pad := Nat.pos_of_ne_zero h
  set q := (size + (pad - 1)) / pad with hq
  have hdm : pad * q + (size + (pad - 1)) % pad = size + (pad - 1) := Nat.div_add_mod _ _
  have hml : (size + (pad - 1)) % pad < pad := Nat.mod_lt _ hp
  have hcm : q * pad = pad * q := Nat.mul_comm _ _
  obtain ⟨P, hP⟩ : ∃ P, pad * q = P := ⟨_, rfl⟩
  have hcp : calculate_padding size pad = P - size := by
    show (q * pad) - size = P - size
    rw [hcm, hP]
  rw [hP] at hdm
  refine ⟨?_, ?_, ?_⟩
  · rw [hcp]; omega
  · have hle : size ≤ P := by omega
    rw [hcp, Nat.add_sub_cancel' hle, ← hP]
    exact Nat.mul_mod_right _ _
  · intro r hr
    obtain ⟨k, hk⟩ := Nat.dvd_of_mod_eq_zero hr
    have hq_le : q ≤ k := by
      by_contra hlt
      push_neg at hlt
      have h2 : pad * (k + 1) ≤ pad * q := Nat.mul_le_mul_left pad hlt
      have h3 : pad * (k + 1) = pad * k + pad := by ring
      rw [hP, h3] at h2
      omega
    have h4 : pad * q ≤ pad * k := Nat.mul_le_mul_left pad hq_le
    rw [hP] at h4
    rw [hcp]
    omega

theorem hss_C8_witness :
    (8 : Nat) ≠ 0
    ∧ (calculate_padding 5 8 < 8
       ∧ (5 + calculate_padding 5 8) % 8 = 0
       ∧ ∀ r : Nat, (5 + r) % 8 = 0 → calculate_padding 5 8 ≤ r) :=
  ⟨by decide, hss_C8_calculate_padding_minimal 5 8 (by decide)⟩

/-- Claim C5: generate_add_chunk with a zero-size descriptor is a no-op: the
builder state is unchanged, the returned count equals the count before the
call, and inserting such a call anywhere in a call sequence leaves the whole
resulting builder state (hence every output table and every other chunk's
computed address) unchanged. -/
theorem hss_C5_zero_size_add_chunk_noop (st : GenState) (c : HSS_BootChunkDesc)
    (buf : List Nat) (h : c.size = 0) (l1 l2 : List BuilderCall) :
    generate_add_chunk st c buf = (st, st.chunkTable.length)
    ∧ runCalls st (l1 ++ BuilderCall.addChunk c buf :: l2) = runCalls st (l1 ++ l2) := by
  constructor
  · simp [generate_add_chunk, h]
  · rw [runCalls_append, runCalls_append]
    simp [runCalls, generate_add_chunk, h]

theorem hss_C5_witness :
    ({ owner := 1, loadAddr := 0, execAddr := 2, size := 0, crc32 := 3 } : HSS_BootChunkDesc).size = 0
    ∧ (generate_add_chunk initGenState
          { owner := 1, loadAddr := 0, execAddr := 2, size := 0, crc32 := 3 } [7]
        = (initGenState, initGenState.chunkTable.length)
      ∧ runCalls initGenState
          ([BuilderCall.addZIChunk { owner := 1, execAddr := 4, size := 8 }]
            ++ BuilderCall.addChunk { owner := 1, loadAddr := 0, execAddr := 2, size := 0, crc32 := 3 } [7]
              :: [BuilderCall.addChunk { owner := 2, loadAddr := 0, execAddr := 6, size := 16, crc32 := 9 } [1, 2]])
        = runCalls initGenState
          ([BuilderCall.addZIChunk { owner := 1, execAddr := 4, size := 8 }]
            ++ [BuilderCall.addChunk { owner := 2, loadAddr := 0, execAddr := 6, size := 16, crc32 := 9 } [1, 2]])) :=
  ⟨rfl, hss_C5_zero_size_add_chunk_noop initGenState
    { owner := 1, loadAddr := 0, execAddr := 2, size := 0, crc32 := 3 } [7] rfl
    [BuilderCall.addZIChunk { owner := 1, execAddr := 4, size := 8 }]
    [BuilderCall.addChunk { owner := 2, loadAddr := 0, execAddr := 6, size := 16, crc32 := 9 } [1, 2]]⟩

/-- Claim C10: generate_init writes only the magic and version fields of the
singleton header record; every other header field and the rest of the builder
state keep their prior values. -/
theorem hss_C10_init_writes_only_magic_version (st : GenState) :
    (generate_init st).bootImage.magic = mHSS_BOOT_MAGIC
    ∧ (generate_init st).bootImage.version = mHSS_BOOT_VERSION
    ∧ (generate_init st).bootImage.chunkTableOffset = st.bootImage.chunkTableOffset
    ∧ (generate_init st).bootImage.ziChunkTableOffset = st.bootImage.ziChunkTableOffset
    ∧ (generate_init st).bootImage.headerLength = st.bootImage.headerLength
    ∧ (generate_init st).bootImage.bootImageLength = st.bootImage.bootImageLength
    ∧ (generate_init st).bootImage.headerCrc = st.bootImage.headerCrc
    ∧ (generate_init st).bootImage.signature = st.bootImage.signature
    ∧ (generate_init st).chunkTable = st.chunkTable
    ∧ (generate_init st).ziChunkTable = st.ziChunkTable := by
  simp [generate_init]

lemma assignLoadAddrs_length (sz : Sizes) (cto n m : Nat)
    (l : List (HSS_BootChunkDesc × List Nat)) (cum : Nat) :
    (assignLoadAddrs sz cto n m l cum).length = l.length := by
  induction l generalizing cum with
  | nil => simp [assignLoadAddrs]
  | cons e rest ih => simp [assignLoadAddrs, ih]

lemma assignLoadAddrs_map_span (sz : Sizes) (cto n m : Nat)
    (l : List (HSS_BootChunkDesc × List Nat)) (cum : Nat) :
    ((assignLoadAddrs sz cto n m l cum).map fun e =>
        e.1.size + calculate_padding e.1.size PAD_SIZE)
      = l.map fun e => e.1.size + calculate_padding e.1.size PAD_SIZE := by
  induction l generalizing cum with
  | nil => simp [assignLoadAddrs]
  | cons e rest ih => simp [assignLoadAddrs, ih]

lemma assignLoadAddrs_map_size_buffer (sz : Sizes) (cto n m : Nat)
    (l : List (HSS_BootChunkDesc × List Nat)) (cum : Nat) :
    ((assignLoadAddrs sz cto n m l cum).map fun e => (e.1.size, e.2))
      = l.map fun e => (e.1.size, e.2) := by
  induction l generalizing cum with
  | nil => simp [assignLoadAddrs]
  | cons e rest ih => simp [assignLoadAddrs, ih]

lemma assignLoadAddrs_getElem? (sz : Sizes) (cto n m : Nat)
    (l : List (HSS_BootChunkDesc × List Nat)) (cum i : Nat) :
    (assignLoadAddrs sz cto n m l cum)[i]?
      = (l[i]?).map fun e =>
          ({ e.1 with
              loadAddr := (chunkLoadAddr sz cto n m
                (cum + ((l.take i).map fun e2 =>
                  e2.1.size + calculate_padding e2.1.size PAD_SIZE).sum)) }, e.2) := by
  induction l generalizing cum i with
  | nil => simp [assignLoadAddrs]
  | cons e rest ih =>
    cases i with
    | zero => simp [assignLoadAddrs]
    | succ i => simp [assignLoadAddrs, ih, List.take_succ_cons, Nat.add_assoc]

/-- Claim C2: in every build the finalized header fields satisfy
chunkTableOffset = sizeof(header) + pad(sizeof(header), 8); headerLength =
padded header size + padded chunk-table size (incl. sentinel) + padded
ZI-chunk-table size (incl. sentinel); and bootImageLength = headerLength +
the sum over all chunks of (size + pad(size, 8)). -/
theorem hss_C2_finalized_header_fields (sz : Sizes) (crc : HSS_BootImage → Nat)
    (sha : List FileItem → List Nat) (ecdsaSign : List Nat → List Nat)
    (signing : Bool) (st : GenState) :
    ((generate_payload_model sz crc sha ecdsaSign signing st).final.bootImage.chunkTableOffset
        = sz.szBootImage + calculate_padding sz.szBootImage PAD_SIZE)
    ∧ ((generate_payload_model sz crc sha ecdsaSign signing st).final.bootImage.headerLength
        = (sz.szBootImage + calculate_padding sz.szBootImage PAD_SIZE)
          + (sz.szChunkDesc * (st.chunkTable.length + 1)
              + calculate_padding (sz.szChunkDesc * (st.chunkTable.length + 1)) PAD_SIZE)
          + (sz.szZIChunkDesc * (st.ziChunkTable.length + 1)
              + calculate_padding (sz.szZIChunkDesc * (st.ziChunkTable.length + 1)) PAD_SIZE))
    ∧ ((generate_payload_model sz crc sha ecdsaSign signing st).final.bootImage.bootImageLength
        = (generate_payload_model sz crc sha ecdsaSign signing st).final.bootImage.headerLength
          + (st.chunkTable.map fun e =>
              e.1.size + calculate_padding e.1.size PAD_SIZE).sum) := by
  cases signing <;>
    simp [generate_payload_model, generate_header_step, generate_chunks_step,
      generate_ziChunks_step, generate_blobs_step, initSState, headerPadCount,
      assignLoadAddrs_map_span, assignLoadAddrs_length] <;>
    ring

lemma final_chunkTable_eq (sz : Sizes) (crc : HSS_BootImage → Nat)
    (sha : List FileItem → List Nat) (ecdsaSign : List Nat → List Nat)
    (signing : Bool) (st : GenState) :
    (generate_payload_model sz crc sha ecdsaSign signing st).final.chunkTable
      = assignLoadAddrs sz (sz.szBootImage + headerPadCount sz)
          st.chunkTable.length st.ziChunkTable.length st.chunkTable 0 := by
  cases signing <;>
    simp [generate_payload_model, generate_header_step, generate_chunks_step,
      generate_ziChunks_step, generate_blobs_step, initSState]

/-- Claim C1: for every sequence of successful add_chunk calls (non-zero
sizes) and add_ziChunk calls followed by one finalize, the load address
computed for chunk i equals the chunk-table file offset, plus the size of the
chunk table including its sentinel padded to 8, plus the size of the ZI-chunk
table including its sentinel padded to 8, plus the sum over all earlier chunks
j < i of size_j padded to 8; chunk i's address depends only on chunks 0..i-1. -/
theorem hss_C1_chunk_load_address (sz : Sizes) (crc : HSS_BootImage → Nat)
    (sha : List FileItem → List Nat) (ecdsaSign : List Nat → List Nat)
    (signing : Bool) (calls : List BuilderCall) (i : Nat)
    (hi : i < (runCalls (generate_init initGenState) calls).chunkTable.length) :
    (((generate_payload_model sz crc sha ecdsaSign signing
          (runCalls (generate_init initGenState) calls)).final.chunkTable[i]?).map
        fun e => e.1.loadAddr)
      = some ((sz.szBootImage + calculate_padding sz.szBootImage PAD_SIZE)
          + (sz.szChunkDesc * ((runCalls (generate_init initGenState) calls).chunkTable.length + 1)
              + calculate_padding
                  (sz.szChunkDesc * ((runCalls (generate_init initGenState) calls).chunkTable.length + 1))
                  PAD_SIZE)
          + (sz.szZIChunkDesc * ((runCalls (generate_init initGenState) calls).ziChunkTable.length + 1)
              + calculate_padding
                  (sz.szZIChunkDesc * ((runCalls (generate_init initGenState) calls).ziChunkTable.length + 1))
                  PAD_SIZE)
          + (((runCalls (generate_init initGenState) calls).chunkTable.take i).map fun e =>
              e.1.size + calculate_padding e.1.size PAD_SIZE).sum) := by
  set st := runCalls (generate_init initGenState) calls with hst
  rw [final_chunkTable_eq, assignLoadAddrs_getElem?, List.getElem?_eq_getElem hi]
  have hcum : (((st.chunkTable.take i).map fun e =>
      e.1.size + calculate_padding e.1.size PAD_SIZE).sum) % 8 = 0 :=
    sum_padded_spans_mod8 _
  have hpadcum : calculate_padding (((st.chunkTable.take i).map fun e =>
      e.1.size + calculate_padding e.1.size PAD_SIZE).sum) PAD_SIZE = 0 :=
    calculate_padding_eq_zero_of_mod8 _ hcum
  simp [chunkLoadAddr, headerPadCount]
  rw [List.map_take] at hpadcum
  simp [hpadcum]
  ring

/-- Concrete record sizes used by the witnesses (values are immaterial: every
claim theorem is proved for arbitrary sizes). -/
def wSizes : Sizes :=
  { szBootImage := 100, szChunkDesc := 20, szZIChunkDesc := 12 }

/-- Concrete builder-call sequence used by the witnesses: two non-zero chunks
(sizes 10 and 20) and one ZI chunk. -/
def wCalls : List BuilderCall :=
  [BuilderCall.addChunk
      { owner := 1, loadAddr := 0, execAddr := 4096, size := 10, crc32 := 5 }
      (List.replicate 10 7),
   BuilderCall.addZIChunk { owner := 2, execAddr := 8192, size := 32 },
   BuilderCall.addChunk
      { owner := 3, loadAddr := 0, execAddr := 12288, size := 20, crc32 := 6 }
      (List.replicate 20 9)]

theorem hss_C1_witness :
    1 < (runCalls (generate_init initGenState) wCalls).chunkTable.length
    ∧ (((generate_payload_model wSizes (fun _ => 0) (fun _ => []) (fun _ => []) false
          (runCalls (generate_init initGenState) wCalls)).final.chunkTable[1]?).map
        fun e => e.1.loadAddr)
      = some ((wSizes.szBootImage + calculate_padding wSizes.szBootImage PAD_SIZE)
          + (wSizes.szChunkDesc * ((runCalls (generate_init initGenState) wCalls).chunkTable.length + 1)
              + calculate_padding
                  (wSizes.szChunkDesc * ((runCalls (generate_init initGenState) wCalls).chunkTable.length + 1))
                  PAD_SIZE)
          + (wSizes.szZIChunkDesc * ((runCalls (generate_init initGenState) wCalls).ziChunkTable.length + 1)
              + calculate_padding
                  (wSizes.szZIChunkDesc * ((runCalls (generate_init initGenState) wCalls).ziChunkTable.length + 1))
                  PAD_SIZE)
          + (((runCalls (generate_init initGenState) wCalls).chunkTable.take 1).map fun e =>
              e.1.size + calculate_padding e.1.size PAD_SIZE).sum) :=
  ⟨by decide, hss_C1_chunk_load_address wSizes (fun _ => 0) (fun _ => []) (fun _ => [])
    false wCalls 1 (by decide)⟩

lemma table_span_mod8 (a k : Nat) :
    (a * k + a + calculate_padding (a * (k + 1)) PAD_SIZE) % 8 = 0 := by
  have h2 : a * k + a = a * (k + 1) := by ring
  rw [h2]
  exact calculate_padding_mod8 (a * (k + 1))

lemma chunkLoadAddr_mod8 (sz : Sizes) (cto n m cum : Nat)
    (hcto : cto % 8 = 0) (hcum : cum % 8 = 0) :
    chunkLoadAddr sz cto n m cum % 8 = 0 := by
  have h2 : n * sz.szChunkDesc + sz.szChunkDesc = sz.szChunkDesc * (n + 1) := by ring
  have h3 : m * sz.szZIChunkDesc + sz.szZIChunkDesc = sz.szZIChunkDesc * (m + 1) := by ring
  have h4 := calculate_padding_mod8 (sz.szChunkDesc * (n + 1))
  have h5 := calculate_padding_mod8 (sz.szZIChunkDesc * (m + 1))
  have h6 := calculate_padding_eq_zero_of_mod8 cum hcum
  simp only [chunkLoadAddr]
  omega

lemma final_bips_eq (sz : Sizes) (crc : HSS_BootImage → Nat)
    (sha : List FileItem → List Nat) (ecdsaSign : List Nat → List Nat)
    (signing : Bool) (st : GenState) :
    (generate_payload_model sz crc sha ecdsaSign signing st).final.bootImagePaddedSize
      = sz.szBootImage + calculate_padding sz.szBootImage PAD_SIZE := by
  cases signing <;>
    simp [generate_payload_model, generate_header_step, generate_chunks_step,
      generate_ziChunks_step, generate_blobs_step, initSState, headerPadCount]

lemma final_zto_eq (sz : Sizes) (crc : HSS_BootImage → Nat)
    (sha : List FileItem → List Nat) (ecdsaSign : List Nat → List Nat)
    (signing : Bool) (st : GenState) :
    (generate_payload_model sz crc sha ecdsaSign signing st).final.bootImage.ziChunkTableOffset
      = sz.szBootImage + calculate_padding sz.szBootImage PAD_SIZE
        + sz.szChunkDesc * st.chunkTable.length + sz.szChunkDesc
        + calculate_padding (sz.szChunkDesc * (st.chunkTable.length + 1)) PAD_SIZE := by
  cases signing <;>
    simp [generate_payload_model, generate_header_step, generate_chunks_step,
      generate_ziChunks_step, generate_blobs_step, initSState, headerPadCount]

lemma final_headerLength_eq (sz : Sizes) (crc : HSS_BootImage → Nat)
    (sha : List FileItem → List Nat) (ecdsaSign : List Nat → List Nat)
    (signing : Bool) (st : GenState) :
    (generate_payload_model sz crc sha ecdsaSign signing st).final.bootImage.headerLength
      = sz.szBootImage + calculate_padding sz.szBootImage PAD_SIZE
        + sz.szChunkDesc * st.chunkTable.length + sz.szChunkDesc
        + calculate_padding (sz.szChunkDesc * (st.chunkTable.length + 1)) PAD_SIZE
        + sz.szZIChunkDesc * st.ziChunkTable.length + sz.szZIChunkDesc
        + calculate_padding (sz.szZIChunkDesc * (st.ziChunkTable.length + 1)) PAD_SIZE := by
  cases signing <;>
    simp [generate_payload_model, generate_header_step, generate_chunks_step,
      generate_ziChunks_step, generate_blobs_step, initSState, headerPadCount]

lemma final_bootImageLength_eq (sz : Sizes) (crc : HSS_BootImage → Nat)
    (sha : List FileItem → List Nat) (ecdsaSign : List Nat → List Nat)
    (signing : Bool) (st : GenState) :
    (generate_payload_model sz crc sha ecdsaSign signing st).final.bootImage.bootImageLength
      = sz.szBootImage + calculate_padding sz.szBootImage PAD_SIZE
        + sz.szChunkDesc * st.chunkTable.length + sz.szChunkDesc
        + calculate_padding (sz.szChunkDesc * (st.chunkTable.length + 1)) PAD_SIZE
        + sz.szZIChunkDesc * st.ziChunkTable.length + sz.szZIChunkDesc
        + calculate_padding (sz.szZIChunkDesc * (st.ziChunkTable.length + 1)) PAD_SIZE
        + (st.chunkTable.map fun e =>
            e.1.size + calculate_padding e.1.size PAD_SIZE).sum := by
  cases signing <;>
    simp [generate_payload_model, generate_header_step, generate_chunks_step,
      generate_ziChunks_step, generate_blobs_step, initSState, headerPadCount,
      assignLoadAddrs_map_span]

lemma assignLoadAddrs_forall_mod8 (sz : Sizes) (cto n m : Nat)
    (l : List (HSS_BootChunkDesc × List Nat)) (cum : Nat)
    (hcto : cto % 8 = 0) (hcum : cum % 8 = 0) :
    (assignLoadAddrs sz cto n m l cum).Forall (fun e => e.1.loadAddr % 8 = 0) := by
  induction l generalizing cum with
  | nil => simp [assignLoadAddrs]
  | cons e rest ih =>
    simp only [assignLoadAddrs, List.forall_cons]
    refine ⟨chunkLoadAddr_mod8 sz cto n m cum hcto hcum, ?_⟩
    apply ih
    have := calculate_padding_mod8 e.1.size
    omega

/-- Claim C3: in every build the end offset of every written section (header,
chunk table, ZI-chunk table, each blob) is a multiple of 8 (the chunk table
ends at ziChunkTableOffset, the ZI-chunk table at headerLength, blob i at
headerLength plus the padded spans of blobs 0..i, and the last blob at
bootImageLength), and every chunk's computed load address is a multiple of 8. -/
theorem hss_C3_eight_byte_alignment (sz : Sizes) (crc : HSS_BootImage → Nat)
    (sha : List FileItem → List Nat) (ecdsaSign : List Nat → List Nat)
    (signing : Bool) (st : GenState) :
    (generate_payload_model sz crc sha ecdsaSign signing st).final.bootImagePaddedSize % 8 = 0
    ∧ (generate_payload_model sz crc sha ecdsaSign signing st).final.bootImage.ziChunkTableOffset % 8 = 0
    ∧ (generate_payload_model sz crc sha ecdsaSign signing st).final.bootImage.headerLength % 8 = 0
    ∧ (∀ i : Fin st.chunkTable.length,
        ((generate_payload_model sz crc sha ecdsaSign signing st).final.bootImage.headerLength
          + ((st.chunkTable.take (i.val + 1)).map fun e =>
              e.1.size + calculate_padding e.1.size PAD_SIZE).sum) % 8 = 0)
    ∧ (generate_payload_model sz crc sha ecdsaSign signing st).final.bootImage.bootImageLength % 8 = 0
    ∧ (generate_payload_model sz crc sha ecdsaSign signing st).final.chunkTable.Forall
        (fun e => e.1.loadAddr % 8 = 0) := by
  have hB := calculate_padding_mod8 sz.szBootImage
  have hC := table_span_mod8 sz.szChunkDesc st.chunkTable.length
  have hZ := table_span_mod8 sz.szZIChunkDesc st.ziChunkTable.length
  have hS := sum_padded_spans_mod8 st.chunkTable
  refine ⟨?_, ?_, ?_, ?_, ?_, ?_⟩
  · rw [final_bips_eq]; omega
  · rw [final_zto_eq]; omega
  · rw [final_headerLength_eq]; omega
  · intro i
    have hT := sum_padded_spans_mod8 (st.chunkTable.take (i.val + 1))
    rw [final_headerLength_eq]
    omega
  · rw [final_bootImageLength_eq]; omega
  · rw [final_chunkTable_eq]
    apply assignLoadAddrs_forall_mod8
    · simp only [headerPadCount]
      omega
    · omega

lemma drop_headerItems (sz : Sizes) (h : HSS_BootImage) (rest : List FileItem) :
    (headerItems sz h ++ rest).drop (1 + headerPadCount sz) = rest := by
  have hl : (headerItems sz h).length = 1 + headerPadCount sz := by
    simp [headerItems]
    omega
  rw [← hl, List.drop_left]

lemma final_file_eq (sz : Sizes) (crc : HSS_BootImage → Nat)
    (sha : List FileItem → List Nat) (ecdsaSign : List Nat → List Nat)
    (signing : Bool) (st : GenState) :
    (generate_payload_model sz crc sha ecdsaSign signing st).final.file
      = headerItems sz (generate_payload_model sz crc sha ecdsaSign signing st).final.bootImage
        ++ (((assignLoadAddrs sz (sz.szBootImage + headerPadCount sz)
                st.chunkTable.length st.ziChunkTable.length st.chunkTable 0).map
              fun e => FileItem.chunkRec e.1)
            ++ [FileItem.chunkRec sentinelChunk]
            ++ List.replicate (calculate_padding (sz.szChunkDesc * (st.chunkTable.length + 1)) PAD_SIZE)
                FileItem.padByte)
        ++ ((st.ziChunkTable.map fun z => FileItem.ziRec z)
            ++ [FileItem.ziRec sentinelZIChunk]
            ++ List.replicate (calculate_padding (sz.szZIChunkDesc * (st.ziChunkTable.length + 1)) PAD_SIZE)
                FileItem.padByte)
        ++ ((assignLoadAddrs sz (sz.szBootImage + headerPadCount sz)
                st.chunkTable.length st.ziChunkTable.length st.chunkTable 0).flatMap
              fun e => FileItem.blob (e.2.take e.1.size)
                :: List.replicate (calculate_padding e.1.size PAD_SIZE) FileItem.padByte) := by
  cases signing <;>
    simp [generate_payload_model, generate_header_step, generate_chunks_step,
      generate_ziChunks_step, generate_blobs_step, initSState, drop_headerItems,
      List.append_assoc]

/-- The chunk descriptors appearing in a written file, in file order: the
contents of the serialized chunk-table region (header, ZI and blob items carry
no chunk descriptors). -/
def writtenChunkDescs (f : List FileItem) : List HSS_BootChunkDesc :=
  f.filterMap fun it =>
    match it with
    | FileItem.chunkRec c => some c
    | _ => none

/-- The ZI-chunk descriptors appearing in a written file, in file order. -/
def writtenZIChunkDescs (f : List FileItem) : List HSS_BootZIChunkDesc :=
  f.filterMap fun it =>
    match it with
    | FileItem.ziRec z => some z
    | _ => none

lemma writtenChunkDescs_append (a b : List FileItem) :
    writtenChunkDescs (a ++ b) = writtenChunkDescs a ++ writtenChunkDescs b := by
  simp [writtenChunkDescs]

lemma writtenZIChunkDescs_append (a b : List FileItem) :
    writtenZIChunkDescs (a ++ b) = writtenZIChunkDescs a ++ writtenZIChunkDescs b := by
  simp [writtenZIChunkDescs]

lemma writtenChunkDescs_headerItems (sz : Sizes) (h : HSS_BootImage) :
    writtenChunkDescs (headerItems sz h) = [] := by
  simp [writtenChunkDescs, headerItems]

lemma writtenZIChunkDescs_headerItems (sz : Sizes) (h : HSS_BootImage) :
    writtenZIChunkDescs (headerItems sz h) = [] := by
  simp [writtenZIChunkDescs, headerItems]

lemma writtenChunkDescs_replicate_pad (k : Nat) :
    writtenChunkDescs (List.replicate k FileItem.padByte) = [] := by
  induction k with
  | zero => simp [writtenChunkDescs]
  | succ k ih => simpa [writtenChunkDescs, List.replicate_succ] using ih

lemma writtenZIChunkDescs_replicate_pad (k : Nat) :
    writtenZIChunkDescs (List.replicate k FileItem.padByte) = [] := by
  induction k with
  | zero => simp [writtenZIChunkDescs]
  | succ k ih => simpa [writtenZIChunkDescs, List.replicate_succ] using ih

lemma writtenChunkDescs_chunkItems (l : List (HSS_BootChunkDesc × List Nat)) :
    writtenChunkDescs (l.map fun e => FileItem.chunkRec e.1) = l.map Prod.fst := by
  induction l with
  | nil => simp [writtenChunkDescs]
  | cons e rest ih => simpa [writtenChunkDescs] using ih

lemma writtenZIChunkDescs_chunkItems (l : List (HSS_BootChunkDesc × List Nat)) :
    writtenZIChunkDescs (l.map fun e => FileItem.chunkRec e.1) = [] := by
  induction l with
  | nil => simp [writtenZIChunkDescs]
  | cons e rest ih => simpa [writtenZIChunkDescs] using ih

lemma writtenChunkDescs_ziItems (l : List HSS_BootZIChunkDesc) :
    writtenChunkDescs (l.map fun z => FileItem.ziRec z) = [] := by
  induction l with
  | nil => simp [writtenChunkDescs]
  | cons z rest ih => simpa [writtenChunkDescs] using ih

lemma writtenZIChunkDescs_ziItems (l : List HSS_BootZIChunkDesc) :
    writtenZIChunkDescs (l.map fun z => FileItem.ziRec z) = l := by
  induction l with
  | nil => simp [writtenZIChunkDescs]
  | cons z rest ih => simpa [writtenZIChunkDescs] using ih

lemma writtenChunkDescs_blobItems (l : List (HSS_BootChunkDesc × List Nat)) :
    writtenChunkDescs (l.flatMap fun e => FileItem.blob (e.2.take e.1.size)
        :: List.replicate (calculate_padding e.1.size PAD_SIZE) FileItem.padByte) = [] := by
  induction l with
  | nil => simp [writtenChunkDescs]
  | cons e rest ih =>
    simpa [writtenChunkDescs, List.filterMap_append] using ih

lemma writtenZIChunkDescs_blobItems (l : List (HSS_BootChunkDesc × List Nat)) :
    writtenZIChunkDescs (l.flatMap fun e => FileItem.blob (e.2.take e.1.size)
        :: List.replicate (calculate_padding e.1.size PAD_SIZE) FileItem.padByte) = [] := by
  induction l with
  | nil => simp [writtenZIChunkDescs]
  | cons e rest ih =>
    simpa [writtenZIChunkDescs, List.filterMap_append] using ih

lemma writtenChunkDescs_single_chunk (c : HSS_BootChunkDesc) :
    writtenChunkDescs [FileItem.chunkRec c] = [c] := by
  simp [writtenChunkDescs]

lemma writtenChunkDescs_single_zi (z : HSS_BootZIChunkDesc) :
    writtenChunkDescs [FileItem.ziRec z] = [] := by
  simp [writtenChunkDescs]

lemma writtenZIChunkDescs_single_chunk (c : HSS_BootChunkDesc) :
    writtenZIChunkDescs [FileItem.chunkRec c] = [] := by
  simp [writtenZIChunkDescs]

lemma writtenZIChunkDescs_single_zi (z : HSS_BootZIChunkDesc) :
    writtenZIChunkDescs [FileItem.ziRec z] = [z] := by
  simp [writtenZIChunkDescs]

lemma runCalls_chunkTable_length (st : GenState) (calls : List BuilderCall) :
    (runCalls st calls).chunkTable.length
      = st.chunkTable.length + countRealChunkCalls calls := by
  induction calls generalizing st with
  | nil => simp [runCalls, countRealChunkCalls]
  | cons a rest ih =>
    cases a with
    | addChunk c b =>
      by_cases hc : c.size ≠ 0 <;>
        simp [runCalls, generate_add_chunk, hc, countRealChunkCalls, ih] <;> omega
    | addZIChunk z =>
      simp [runCalls, generate_add_ziChunk, countRealChunkCalls, ih]

lemma runCalls_ziChunkTable_length (st : GenState) (calls : List BuilderCall) :
    (runCalls st calls).ziChunkTable.length
      = st.ziChunkTable.length + countZICalls calls := by
  induction calls generalizing st with
  | nil => simp [runCalls, countZICalls]
  | cons a rest ih =>
    cases a with
    | addChunk c b =>
      by_cases hc : c.size ≠ 0 <;>
        simp [runCalls, generate_add_chunk, hc, countZICalls, ih]
    | addZIChunk z =>
      simp [runCalls, generate_add_ziChunk, countZICalls, ih]
      omega

lemma assignLoadAddrs_map_size (sz : Sizes) (cto n m : Nat)
    (l : List (HSS_BootChunkDesc × List Nat)) (cum : Nat) :
    ((assignLoadAddrs sz cto n m l cum).map fun e => e.1.size)
      = l.map fun e => e.1.size := by
  induction l generalizing cum with
  | nil => simp [assignLoadAddrs]
  | cons e rest ih => simp [assignLoadAddrs, ih]

lemma runCalls_sizes_nonzero (st : GenState) (calls : List BuilderCall)
    (h : (st.chunkTable.map fun e => e.1.size).all (fun s => s != 0) = true) :
    ((runCalls st calls).chunkTable.map fun e => e.1.size).all (fun s => s != 0) = true := by
  induction calls generalizing st with
  | nil => simpa [runCalls] using h
  | cons a rest ih =>
    cases a with
    | addChunk c b =>
      by_cases hc : c.size ≠ 0
      · refine ih _ ?_
        simp [generate_add_chunk, hc, h]
      · refine ih _ ?_
        simpa [generate_add_chunk, hc] using h
    | addZIChunk z =>
      refine ih _ ?_
      simpa [generate_add_ziChunk] using h

/-- Claim C4: for every build with N successfully added (non-zero-size)
chunks and M added ZI-chunks, the serialized chunk table consists of exactly
the N real (non-zero-size) descriptors, in order, followed by exactly one
all-zero sentinel descriptor, and the serialized ZI-chunk table consists of
exactly the M added descriptors followed by exactly one all-zero sentinel. -/
theorem hss_C4_tables_end_with_single_sentinel (sz : Sizes) (crc : HSS_BootImage → Nat)
    (sha : List FileItem → List Nat) (ecdsaSign : List Nat → List Nat)
    (signing : Bool) (calls : List BuilderCall) :
    writtenChunkDescs (generate_payload_model sz crc sha ecdsaSign signing
        (runCalls (generate_init initGenState) calls)).final.file
      = ((generate_payload_model sz crc sha ecdsaSign signing
          (runCalls (generate_init initGenState) calls)).final.chunkTable.map Prod.fst)
        ++ [{ owner := 0, loadAddr := 0, execAddr := 0, size := 0, crc32 := 0 }]
    ∧ ((generate_payload_model sz crc sha ecdsaSign signing
        (runCalls (generate_init initGenState) calls)).final.chunkTable.map Prod.fst).length
      = countRealChunkCalls calls
    ∧ (((generate_payload_model sz crc sha ecdsaSign signing
        (runCalls (generate_init initGenState) calls)).final.chunkTable.map Prod.fst).map
          (fun d => d.size)).all (fun s => s != 0) = true
    ∧ writtenZIChunkDescs (generate_payload_model sz crc sha ecdsaSign signing
        (runCalls (generate_init initGenState) calls)).final.file
      = (runCalls (generate_init initGenState) calls).ziChunkTable
        ++ [{ owner := 0, execAddr := 0, size := 0 }]
    ∧ (runCalls (generate_init initGenState) calls).ziChunkTable.length
      = countZICalls calls := by
  refine ⟨?_, ?_, ?_, ?_, ?_⟩
  · rw [final_file_eq, final_chunkTable_eq]
    simp only [writtenChunkDescs_append, writtenChunkDescs_headerItems,
      writtenChunkDescs_chunkItems, writtenChunkDescs_replicate_pad,
      writtenChunkDescs_ziItems, writtenChunkDescs_blobItems,
      writtenChunkDescs_single_chunk, writtenChunkDescs_single_zi,
      List.nil_append, List.append_nil]
    simp [sentinelChunk]
  · rw [final_chunkTable_eq]
    simp only [List.length_map, assignLoadAddrs_length]
    have := runCalls_chunkTable_length (generate_init initGenState) calls
    simpa [generate_init, initGenState] using this
  · rw [final_chunkTable_eq]
    have hmap : (((assignLoadAddrs sz
          (sz.szBootImage + headerPadCount sz)
          (runCalls (generate_init initGenState) calls).chunkTable.length
          (runCalls (generate_init initGenState) calls).ziChunkTable.length
          (runCalls (generate_init initGenState) calls).chunkTable 0).map Prod.fst).map
            (fun d => d.size))
        = ((runCalls (generate_init initGenState) calls).chunkTable.map fun e => e.1.size) := by
      rw [List.map_map]
      exact assignLoadAddrs_map_size _ _ _ _ _ _
    rw [hmap]
    apply runCalls_sizes_nonzero
    simp [generate_init, initGenState]
  · rw [final_file_eq]
    simp only [writtenZIChunkDescs_append, writtenZIChunkDescs_headerItems,
      writtenZIChunkDescs_chunkItems, writtenZIChunkDescs_replicate_pad,
      writtenZIChunkDescs_ziItems, writtenZIChunkDescs_blobItems,
      writtenZIChunkDescs_single_chunk, writtenZIChunkDescs_single_zi,
      List.nil_append, List.append_nil]
    simp [sentinelZIChunk]
  · have := runCalls_ziChunkTable_length (generate_init initGenState) calls
    simpa [generate_init, initGenState] using this

/-- Modelled from the claim (C9): the simpler address formula that sums the
earlier individually-padded blob sizes, with no extra padding correction term
on the running total. -/
def chunkLoadAddrSimple (sz : Sizes) (chunkTableOffset numChunks numZIChunks cumulativeBlobSize : Nat) : Nat :=
  chunkTableOffset
  + numChunks * sz.szChunkDesc
  + sz.szChunkDesc
  + calculate_padding (sz.szChunkDesc * (numChunks + 1)) PAD_SIZE
  + numZIChunks * sz.szZIChunkDesc
  + sz.szZIChunkDesc
  + calculate_padding (sz.szZIChunkDesc * (numZIChunks + 1)) PAD_SIZE
  + cumulativeBlobSize

/-- Claim C9: in the chunk-table pass the running cumulative blob-size total
(each chunk contributing its size plus its individual padding) is a multiple
of 8 at the start of every iteration, so the extra term
calculate_padding(cumulativeBlobSize, 8) in the code's load-address
computation is always zero, and the code's address equals the simpler formula
that just adds the sum of the earlier individually-padded blob sizes. -/
theorem hss_C9_cumulative_padding_always_zero (sz : Sizes) (cto n m : Nat)
    (chunks : List (HSS_BootChunkDesc × List Nat)) (i : Nat) (hi : i < chunks.length) :
    (((chunks.take i).map fun e => e.1.size + calculate_padding e.1.size PAD_SIZE).sum) % 8 = 0
    ∧ calculate_padding
        (((chunks.take i).map fun e => e.1.size + calculate_padding e.1.size PAD_SIZE).sum)
        PAD_SIZE = 0
    ∧ ((assignLoadAddrs sz cto n m chunks 0)[i]?.map fun e => e.1.loadAddr)
      = some (chunkLoadAddrSimple sz cto n m
          (((chunks.take i).map fun e => e.1.size + calculate_padding e.1.size PAD_SIZE).sum)) := by
  have hcum := sum_padded_spans_mod8 (chunks.take i)
  have hpad := calculate_padding_eq_zero_of_mod8 _ hcum
  refine ⟨hcum, hpad, ?_⟩
  rw [assignLoadAddrs_getElem?, List.getElem?_eq_getElem hi]
  simp only [Option.map_some']
  rw [List.map_take] at hpad
  simp [chunkLoadAddr, chunkLoadAddrSimple, hpad]

theorem hss_C9_witness :
    1 < ([({ owner := 1, loadAddr := 0, execAddr := 0, size := 10, crc32 := 0 }, List.replicate 10 3),
          ({ owner := 2, loadAddr := 0, execAddr := 0, size := 20, crc32 := 0 }, List.replicate 20 4)]
            : List (HSS_BootChunkDesc × List Nat)).length
    ∧ ((([({ owner := 1, loadAddr := 0, execAddr := 0, size := 10, crc32 := 0 }, List.replicate 10 3),
          ({ owner := 2, loadAddr := 0, execAddr := 0, size := 20, crc32 := 0 }, List.replicate 20 4)]
            : List (HSS_BootChunkDesc × List Nat)).take 1).map
        (fun e => e.1.size + calculate_padding e.1.size PAD_SIZE)).sum % 8 = 0
    ∧ calculate_padding
        ((([({ owner := 1, loadAddr := 0, execAddr := 0, size := 10, crc32 := 0 }, List.replicate 10 3),
          ({ owner := 2, loadAddr := 0, execAddr := 0, size := 20, crc32 := 0 }, List.replicate 20 4)]
            : List (HSS_BootChunkDesc × List Nat)).take 1).map
          (fun e => e.1.size + calculate_padding e.1.size PAD_SIZE)).sum
        PAD_SIZE = 0
    ∧ ((assignLoadAddrs wSizes 104 2 1
          [({ owner := 1, loadAddr := 0, execAddr := 0, size := 10, crc32 := 0 }, List.replicate 10 3),
           ({ owner := 2, loadAddr := 0, execAddr := 0, size := 20, crc32 := 0 }, List.replicate 20 4)]
          0)[1]?.map fun e => e.1.loadAddr)
      = some (chunkLoadAddrSimple wSizes 104 2 1
          ((([({ owner := 1, loadAddr := 0, execAddr := 0, size := 10, crc32 := 0 }, List.replicate 10 3),
              ({ owner := 2, loadAddr := 0, execAddr := 0, size := 20, crc32 := 0 }, List.replicate 20 4)]
                : List (HSS_BootChunkDesc × List Nat)).take 1).map
            (fun e => e.1.size + calculate_padding e.1.size PAD_SIZE)).sum) :=
  ⟨by decide,
    hss_C9_cumulative_padding_always_zero wSizes 104 2 1
      [({ owner := 1, loadAddr := 0, execAddr := 0, size := 10, crc32 := 0 }, List.replicate 10 3),
       ({ owner := 2, loadAddr := 0, execAddr := 0, size := 20, crc32 := 0 }, List.replicate 20 4)]
      1 (by decide)⟩

lemma runCalls_bootImage (st : GenState) (calls : List BuilderCall) :
    (runCalls st calls).bootImage = st.bootImage := by
  induction calls generalizing st with
  | nil => simp [runCalls]
  | cons a rest ih =>
    cases a with
    | addChunk c b =>
      by_cases hc : c.size ≠ 0 <;> simp [runCalls, generate_add_chunk, hc, ih]
    | addZIChunk z => simp [runCalls, generate_add_ziChunk, ih]

lemma fileSize_append (sz : Sizes) (a b : List FileItem) :
    fileSize sz (a ++ b) = fileSize sz a + fileSize sz b := by
  simp [fileSize]

lemma fileSize_headerItems (sz : Sizes) (h : HSS_BootImage) :
    fileSize sz (headerItems sz h) = sz.szBootImage + headerPadCount sz := by
  simp [fileSize, headerItems, itemSize, List.map_replicate, List.sum_replicate,
    smul_eq_mul]

lemma fileSize_replicate_pad (sz : Sizes) (k : Nat) :
    fileSize sz (List.replicate k FileItem.padByte) = k := by
  simp [fileSize, itemSize, List.map_replicate, List.sum_replicate, smul_eq_mul]

lemma fileSize_chunkItems (sz : Sizes) (l : List (HSS_BootChunkDesc × List Nat)) :
    fileSize sz (l.map fun e => FileItem.chunkRec e.1) = sz.szChunkDesc * l.length := by
  induction l with
  | nil => simp [fileSize]
  | cons e rest ih =>
    simp [fileSize, itemSize] at ih ⊢
    rw [ih]
    ring

lemma fileSize_ziItems (sz : Sizes) (l : List HSS_BootZIChunkDesc) :
    fileSize sz (l.map fun z => FileItem.ziRec z) = sz.szZIChunkDesc * l.length := by
  induction l with
  | nil => simp [fileSize]
  | cons z rest ih =>
    simp [fileSize, itemSize] at ih ⊢
    rw [ih]
    ring

lemma fileSize_blobItems (sz : Sizes) (l : List (HSS_BootChunkDesc × List Nat))
    (hbuf : ∀ e ∈ l, e.2.length = e.1.size) :
    fileSize sz (l.flatMap fun e => FileItem.blob (e.2.take e.1.size)
        :: List.replicate (calculate_padding e.1.size PAD_SIZE) FileItem.padByte)
      = (l.map fun e => e.1.size + calculate_padding e.1.size PAD_SIZE).sum := by
  induction l with
  | nil => simp [fileSize]
  | cons e rest ih =>
    have hlen : (e.2.take e.1.size).length = e.1.size := by
      have := hbuf e (by simp)
      simp [List.length_take, this]
    simp only [List.flatMap_cons, List.map_cons, List.sum_cons]
    rw [show (FileItem.blob (e.2.take e.1.size)
          :: List.replicate (calculate_padding e.1.size PAD_SIZE) FileItem.padByte)
            ++ rest.flatMap (fun e => FileItem.blob (e.2.take e.1.size)
              :: List.replicate (calculate_padding e.1.size PAD_SIZE) FileItem.padByte)
        = [FileItem.blob (e.2.take e.1.size)]
            ++ List.replicate (calculate_padding e.1.size PAD_SIZE) FileItem.padByte
            ++ rest.flatMap (fun e => FileItem.blob (e.2.take e.1.size)
              :: List.replicate (calculate_padding e.1.size PAD_SIZE) FileItem.padByte)
        from by simp]
    rw [fileSize_append, fileSize_append, fileSize_replicate_pad,
      ih (fun x hx => hbuf x (by simp [hx]))]
    simp [fileSize, itemSize, hlen]

lemma assignLoadAddrs_buflen (sz : Sizes) (cto n m : Nat) :
    ∀ (l : List (HSS_BootChunkDesc × List Nat)) (cum : Nat),
      (∀ e ∈ l, e.2.length = e.1.size) →
      ∀ e ∈ assignLoadAddrs sz cto n m l cum, e.2.length = e.1.size := by
  intro l
  induction l with
  | nil =>
    intro cum h e he
    simp [assignLoadAddrs] at he
  | cons a rest ih =>
    intro cum h e he
    simp only [assignLoadAddrs, List.mem_cons] at he
    rcases he with he | he
    · rw [he]
      exact h a (by simp)
    · exact ih _ (fun x hx => h x (by simp [hx])) e he

lemma runCalls_buflen :
    ∀ (calls : List BuilderCall) (st : GenState),
      (∀ c b, BuilderCall.addChunk c b ∈ calls → b.length = c.size) →
      (∀ e ∈ st.chunkTable, e.2.length = e.1.size) →
      ∀ e ∈ (runCalls st calls).chunkTable, e.2.length = e.1.size := by
  intro calls
  induction calls with
  | nil =>
    intro st hc hst
    simpa [runCalls] using hst
  | cons a rest ih =>
    intro st hc hst
    cases a with
    | addChunk c b =>
      simp only [runCalls]
      apply ih
      · intro c' b' h'
        exact hc c' b' (by simp [h'])
      · intro e he
        by_cases hcs : c.size ≠ 0
        · simp only [generate_add_chunk, if_pos hcs] at he
          simp only [List.mem_append, List.mem_singleton] at he
          rcases he with he | he
          · exact hst e he
          · rw [he]
            exact hc c b (by simp)
        · simp only [generate_add_chunk, if_neg hcs] at he
          exact hst e he
    | addZIChunk z =>
      simp only [runCalls]
      apply ih
      · intro c' b' h'
        exact hc c' b' (by simp [h'])
      · intro e he
        simpa [generate_add_ziChunk] using hst e he

lemma crcInput_signature_eq (sz : Sizes) (crc : HSS_BootImage → Nat)
    (sha : List FileItem → List Nat) (ecdsaSign : List Nat → List Nat)
    (signing : Bool) (st : GenState) :
    (generate_payload_model sz crc sha ecdsaSign signing st).crcInput.signature
      = st.bootImage.signature := by
  cases signing <;>
    simp [generate_payload_model, generate_header_step, generate_chunks_step,
      generate_ziChunks_step, generate_blobs_step, initSState]

lemma crcInput_offsets_final (sz : Sizes) (crc : HSS_BootImage → Nat)
    (sha : List FileItem → List Nat) (ecdsaSign : List Nat → List Nat)
    (signing : Bool) (st : GenState) :
    (generate_payload_model sz crc sha ecdsaSign signing st).crcInput.chunkTableOffset
      = (generate_payload_model sz crc sha ecdsaSign signing st).final.bootImage.chunkTableOffset
    ∧ (generate_payload_model sz crc sha ecdsaSign signing st).crcInput.ziChunkTableOffset
      = (generate_payload_model sz crc sha ecdsaSign signing st).final.bootImage.ziChunkTableOffset
    ∧ (generate_payload_model sz crc sha ecdsaSign signing st).crcInput.headerLength
      = (generate_payload_model sz crc sha ecdsaSign signing st).final.bootImage.headerLength
    ∧ (generate_payload_model sz crc sha ecdsaSign signing st).crcInput.bootImageLength
      = (generate_payload_model sz crc sha ecdsaSign signing st).final.bootImage.bootImageLength := by
  cases signing <;>
    simp [generate_payload_model, generate_header_step, generate_chunks_step,
      generate_ziChunks_step, generate_blobs_step, initSState]

lemma final_headerCrc_eq (sz : Sizes) (crc : HSS_BootImage → Nat)
    (sha : List FileItem → List Nat) (ecdsaSign : List Nat → List Nat)
    (signing : Bool) (st : GenState) :
    (generate_payload_model sz crc sha ecdsaSign signing st).final.bootImage.headerCrc
      = crc ((generate_payload_model sz crc sha ecdsaSign signing st).crcInput) := by
  cases signing <;>
    simp [generate_payload_model, generate_header_step, generate_chunks_step,
      generate_ziChunks_step, generate_blobs_step, initSState]

lemma digestInput_eq (sz : Sizes) (crc : HSS_BootImage → Nat)
    (sha : List FileItem → List Nat) (ecdsaSign : List Nat → List Nat) (st : GenState) :
    (generate_payload_model sz crc sha ecdsaSign true st).digestInput
      = some (headerItems sz
          { (generate_payload_model sz crc sha ecdsaSign true st).crcInput with
              headerCrc := crc ((generate_payload_model sz crc sha ecdsaSign true st).crcInput) }
        ++ (((assignLoadAddrs sz (sz.szBootImage + headerPadCount sz)
                st.chunkTable.length st.ziChunkTable.length st.chunkTable 0).map
              fun e => FileItem.chunkRec e.1)
            ++ [FileItem.chunkRec sentinelChunk]
            ++ List.replicate (calculate_padding (sz.szChunkDesc * (st.chunkTable.length + 1)) PAD_SIZE)
                FileItem.padByte)
        ++ ((st.ziChunkTable.map fun z => FileItem.ziRec z)
            ++ [FileItem.ziRec sentinelZIChunk]
            ++ List.replicate (calculate_padding (sz.szZIChunkDesc * (st.ziChunkTable.length + 1)) PAD_SIZE)
                FileItem.padByte)
        ++ ((assignLoadAddrs sz (sz.szBootImage + headerPadCount sz)
                st.chunkTable.length st.ziChunkTable.length st.chunkTable 0).flatMap
              fun e => FileItem.blob (e.2.take e.1.size)
                :: List.replicate (calculate_padding e.1.size PAD_SIZE) FileItem.padByte)) := by
  simp [generate_payload_model, generate_header_step, generate_chunks_step,
    generate_ziChunks_step, generate_blobs_step, initSState, drop_headerItems,
    List.append_assoc]

lemma fileSize_single_chunk (sz : Sizes) (c : HSS_BootChunkDesc) :
    fileSize sz [FileItem.chunkRec c] = sz.szChunkDesc := by
  simp [fileSize, itemSize]

lemma fileSize_single_zi (sz : Sizes) (z : HSS_BootZIChunkDesc) :
    fileSize sz [FileItem.ziRec z] = sz.szZIChunkDesc := by
  simp [fileSize, itemSize]

lemma digestInput_fileSize (sz : Sizes) (crc : HSS_BootImage → Nat)
    (sha : List FileItem → List Nat) (ecdsaSign : List Nat → List Nat) (st : GenState)
    (hbuf : ∀ e ∈ st.chunkTable, e.2.length = e.1.size) :
    (generate_payload_model sz crc sha ecdsaSign true st).digestInput.map (fileSize sz)
      = some ((generate_payload_model sz crc sha ecdsaSign true st).final.bootImage.bootImageLength) := by
  rw [digestInput_eq]
  simp only [Option.map_some', Option.some.injEq]
  rw [final_bootImageLength_eq]
  simp only [fileSize_append, fileSize_headerItems, fileSize_chunkItems,
    fileSize_ziItems, fileSize_replicate_pad, fileSize_single_chunk, fileSize_single_zi,
    assignLoadAddrs_length]
  rw [fileSize_blobItems _ _ (assignLoadAddrs_buflen _ _ _ _ _ _ hbuf),
    assignLoadAddrs_map_span]
  simp only [headerPadCount]
  omega

lemma digest_stored (sz : Sizes) (crc : HSS_BootImage → Nat)
    (sha : List FileItem → List Nat) (ecdsaSign : List Nat → List Nat) (st : GenState) :
    (generate_payload_model sz crc sha ecdsaSign true st).digestInput.map sha
      = some ((generate_payload_model sz crc sha ecdsaSign true st).final.bootImage.signature.digest) := by
  simp [generate_payload_model, generate_header_step, generate_chunks_step,
    generate_ziChunks_step, generate_blobs_step, initSState]

/-- Claim C6: in every build the 32-bit header checksum is computed over the
header record after chunkTableOffset, ziChunkTableOffset, headerLength and
bootImageLength are finalized but before any signature bytes are populated
(digest and raw-signature fields still zero at that point); when signing is
enabled, the stored 384-bit digest is computed over exactly the first
bootImageLength bytes of the file as written, with the checksum populated and
the signature block still zero — so the checksum never covers the signature
and the digest never covers the final signature bytes. -/
theorem hss_C6_checksum_then_digest_layering (sz : Sizes) (crc : HSS_BootImage → Nat)
    (sha : List FileItem → List Nat) (ecdsaSign : List Nat → List Nat)
    (calls : List BuilderCall)
    (hbuf : ∀ c b, BuilderCall.addChunk c b ∈ calls → b.length = c.size) :
    (generate_payload_model sz crc sha ecdsaSign true
        (runCalls (generate_init initGenState) calls)).crcInput.signature.digest
      = List.replicate 48 0
    ∧ (generate_payload_model sz crc sha ecdsaSign true
        (runCalls (generate_init initGenState) calls)).crcInput.signature.ecdsaSig
      = List.replicate 96 0
    ∧ (generate_payload_model sz crc sha ecdsaSign true
        (runCalls (generate_init initGenState) calls)).crcInput.chunkTableOffset
      = (generate_payload_model sz crc sha ecdsaSign true
          (runCalls (generate_init initGenState) calls)).final.bootImage.chunkTableOffset
    ∧ (generate_payload_model sz crc sha ecdsaSign true
        (runCalls (generate_init initGenState) calls)).crcInput.ziChunkTableOffset
      = (generate_payload_model sz crc sha ecdsaSign true
          (runCalls (generate_init initGenState) calls)).final.bootImage.ziChunkTableOffset
    ∧ (generate_payload_model sz crc sha ecdsaSign true
        (runCalls (generate_init initGenState) calls)).crcInput.headerLength
      = (generate_payload_model sz crc sha ecdsaSign true
          (runCalls (generate_init initGenState) calls)).final.bootImage.headerLength
    ∧ (generate_payload_model sz crc sha ecdsaSign true
        (runCalls (generate_init initGenState) calls)).crcInput.bootImageLength
      = (generate_payload_model sz crc sha ecdsaSign true
          (runCalls (generate_init initGenState) calls)).final.bootImage.bootImageLength
    ∧ (generate_payload_model sz crc sha ecdsaSign true
        (runCalls (generate_init initGenState) calls)).final.bootImage.headerCrc
      = crc ((generate_payload_model sz crc sha ecdsaSign true
          (runCalls (generate_init initGenState) calls)).crcInput)
    ∧ (generate_payload_model sz crc sha ecdsaSign true
        (runCalls (generate_init initGenState) calls)).digestInput.map List.head?
      = some (some (FileItem.headerRec
          { (generate_payload_model sz crc sha ecdsaSign true
              (runCalls (generate_init initGenState) calls)).crcInput with
              headerCrc := crc ((generate_payload_model sz crc sha ecdsaSign true
                (runCalls (generate_init initGenState) calls)).crcInput) }))
    ∧ (generate_payload_model sz crc sha ecdsaSign true
        (runCalls (generate_init initGenState) calls)).digestInput.map (fileSize sz)
      = some ((generate_payload_model sz crc sha ecdsaSign true
          (runCalls (generate_init initGenState) calls)).final.bootImage.bootImageLength)
    ∧ (generate_payload_model sz crc sha ecdsaSign true
        (runCalls (generate_init initGenState) calls)).digestInput.map sha
      = some ((generate_payload_model sz crc sha ecdsaSign true
          (runCalls (generate_init initGenState) calls)).final.bootImage.signature.digest) := by
  have hbi := runCalls_bootImage (generate_init initGenState) calls
  have hb : ∀ e ∈ (runCalls (generate_init initGenState) calls).chunkTable,
      e.2.length = e.1.size :=
    runCalls_buflen calls _ hbuf (by simp [generate_init, initGenState])
  refine ⟨?_, ?_,
    (crcInput_offsets_final sz crc sha ecdsaSign true _).1,
    (crcInput_offsets_final sz crc sha ecdsaSign true _).2.1,
    (crcInput_offsets_final sz crc sha ecdsaSign true _).2.2.1,
    (crcInput_offsets_final sz crc sha ecdsaSign true _).2.2.2,
    final_headerCrc_eq sz crc sha ecdsaSign true _, ?_,
    digestInput_fileSize sz crc sha ecdsaSign _ hb,
    digest_stored sz crc sha ecdsaSign _⟩
  · rw [crcInput_signature_eq, hbi]
    simp [generate_init, initGenState]
  · rw [crcInput_signature_eq, hbi]
    simp [generate_init, initGenState]
  · rw [digestInput_eq]
    simp [headerItems]

/-- Concrete stand-in for the external CRC32 primitive, used by the witnesses. -/
def wCrc : HSS_BootImage → Nat := fun _ => 12345

/-- Concrete stand-in for the external SHA384 primitive, used by the witnesses. -/
def wSha : List FileItem → List Nat := fun _ => List.replicate 48 1

/-- Concrete stand-in for the external ECDSA signing sequence, used by the
witnesses. -/
def wEcd : List Nat → List Nat := fun _ => List.replicate 96 2

theorem hss_C6_witness :
    (∀ c b, BuilderCall.addChunk c b ∈ wCalls → b.length = c.size)
    ∧ ((generate_payload_model wSizes wCrc wSha wEcd true (runCalls (generate_init initGenState) wCalls)).crcInput.signature.digest = List.replicate 48 0
      ∧ (generate_payload_model wSizes wCrc wSha wEcd true (runCalls (generate_init initGenState) wCalls)).crcInput.signature.ecdsaSig = List.replicate 96 0
      ∧ (generate_payload_model wSizes wCrc wSha wEcd true (runCalls (generate_init initGenState) wCalls)).crcInput.chunkTableOffset = (generate_payload_model wSizes wCrc wSha wEcd true (runCalls (generate_init initGenState) wCalls)).final.bootImage.chunkTableOffset
      ∧ (generate_payload_model wSizes wCrc wSha wEcd true (runCalls (generate_init initGenState) wCalls)).crcInput.ziChunkTableOffset = (generate_payload_model wSizes wCrc wSha wEcd true (runCalls (generate_init initGenState) wCalls)).final.bootImage.ziChunkTableOffset
      ∧ (generate_payload_model wSizes wCrc wSha wEcd true (runCalls (generate_init initGenState) wCalls)).crcInput.headerLength = (generate_payload_model wSizes wCrc wSha wEcd true (runCalls (generate_init initGenState) wCalls)).final.bootImage.headerLength
      ∧ (generate_payload_model wSizes wCrc wSha wEcd true (runCalls (generate_init initGenState) wCalls)).crcInput.bootImageLength = (generate_payload_model wSizes wCrc wSha wEcd true (runCalls (generate_init initGenState) wCalls)).final.bootImage.bootImageLength
      ∧ (generate_payload_model wSizes wCrc wSha wEcd true (runCalls (generate_init initGenState) wCalls)).final.bootImage.headerCrc = wCrc ((generate_payload_model wSizes wCrc wSha wEcd true (runCalls (generate_init initGenState) wCalls)).crcInput)
      ∧ (generate_payload_model wSizes wCrc wSha wEcd true (runCalls (generate_init initGenState) wCalls)).digestInput.map List.head?
        = some (some (FileItem.headerRec
            { (generate_payload_model wSizes wCrc wSha wEcd true (runCalls (generate_init initGenState) wCalls)).crcInput with headerCrc := wCrc ((generate_payload_model wSizes wCrc wSha wEcd true (runCalls (generate_init initGenState) wCalls)).crcInput) }))
      ∧ (generate_payload_model wSizes wCrc wSha wEcd true (runCalls (generate_init initGenState) wCalls)).digestInput.map (fileSize wSizes)
        = some ((generate_payload_model wSizes wCrc wSha wEcd true (runCalls (generate_init initGenState) wCalls)).final.bootImage.bootImageLength)
      ∧ (generate_payload_model wSizes wCrc wSha wEcd true (runCalls (generate_init initGenState) wCalls)).digestInput.map wSha
        = some ((generate_payload_model wSizes wCrc wSha wEcd true (runCalls (generate_init initGenState) wCalls)).final.bootImage.signature.digest)) :=
  ⟨by intro c b hmem; simp [wCalls] at hmem; rcases hmem with ⟨hc, hb⟩ | ⟨hc, hb⟩ <;> subst hc <;> subst hb <;> decide,
   hss_C6_checksum_then_digest_layering wSizes wCrc wSha wEcd wCalls (by intro c b hmem; simp [wCalls] at hmem; rcases hmem with ⟨hc, hb⟩ | ⟨hc, hb⟩ <;> subst hc <;> subst hb <;> decide)⟩

/-- The C standard exit statuses used by generate_payload.c: EXIT_SUCCESS is 0
and EXIT_FAILURE is the non-zero failure status (1 in glibc). -/
def EXIT_SUCCESS : Nat := 0

/-- Non-zero process exit status used on fopen, fclose and realloc failure. -/
def EXIT_FAILURE : Nat := 1

/-- How the process ends when an I/O failure is detected: an explicit exit
with a status, or an abort raised by a failed assert (abnormal termination,
observed by the parent as a non-zero status). -/
inductive ProcessTermination where
  | exitWith (status : Nat)
  | aborted
deriving DecidableEq, Repr

/-- Whether a termination is non-zero as observed by the invoking shell. -/
def terminationNonZero : ProcessTermination → Bool
  | ProcessTermination.exitWith s => s != 0
  | ProcessTermination.aborted => true

/-- The I/O operations of generate_payload.c whose failure is detected and
handled, one constructor per error-handling branch in the source. -/
inductive IOFailurePoint where
  | fopenOutput      -- generate_payload fopen failure, lines 420-424
  | headerSeek       -- generate_header fseek failure, lines 163-166
  | headerWrite      -- generate_header fwrite failure, lines 168-172
  | padWrite         -- write_pad fputc failure, lines 146-153
  | chunkDescWrite   -- generate_chunks descriptor fwrite failure, lines 218-222
  | chunkSentinelWrite -- generate_chunks sentinel fwrite failure, lines 234-238
  | ziDescWrite      -- generate_ziChunks descriptor fwrite failure, lines 266-271
  | ziSentinelWrite  -- generate_ziChunks sentinel fwrite failure, lines 281-285
  | blobWrite        -- generate_blobs fwrite failure, lines 312-316
  | signSeek         -- sign_payload fseek failure, lines 339-342
  | signReadShort    -- sign_payload short fread, assert at lines 344-345
  | keyFileOpen      -- sign_payload key-file fopen failure, assert at lines 364-365
  | closeOutput      -- generate_payload fclose failure, lines 445-448
deriving DecidableEq, Repr, Fintype

/-- The diagnostic each failure branch reports before terminating: the perror
tag passed in the source, or the asserted expression for the assert paths. -/
def errorReportOnFailure : IOFailurePoint → String
  | IOFailurePoint.fopenOutput => "fopen()"
  | IOFailurePoint.headerSeek => "fseek()"
  | IOFailurePoint.headerWrite => "fwrite()"
  | IOFailurePoint.padWrite => "fwrite()"
  | IOFailurePoint.chunkDescWrite => "fwrite()"
  | IOFailurePoint.chunkSentinelWrite => "fwrite()"
  | IOFailurePoint.ziDescWrite => "fwrite()"
  | IOFailurePoint.ziSentinelWrite => "fwrite()"
  | IOFailurePoint.blobWrite => "fwrite()"
  | IOFailurePoint.signSeek => "fseek()"
  | IOFailurePoint.signReadShort => "assert fileSize == bootImage.bootImageLength"
  | IOFailurePoint.keyFileOpen => "assert privKeyFileIn != NULL"
  | IOFailurePoint.closeOutput => "fclose()"

/-- How each failure branch of generate_payload.c ends the process, read
directly off the exit call (or assert) in that branch. -/
def exitOnFailure : IOFailurePoint → ProcessTermination
  | IOFailurePoint.fopenOutput => ProcessTermination.exitWith EXIT_FAILURE
  | IOFailurePoint.headerSeek => ProcessTermination.exitWith EXIT_SUCCESS
  | IOFailurePoint.headerWrite => ProcessTermination.exitWith EXIT_SUCCESS
  | IOFailurePoint.padWrite => ProcessTermination.exitWith EXIT_SUCCESS
  | IOFailurePoint.chunkDescWrite => ProcessTermination.exitWith EXIT_SUCCESS
  | IOFailurePoint.chunkSentinelWrite => ProcessTermination.exitWith EXIT_SUCCESS
  | IOFailurePoint.ziDescWrite => ProcessTermination.exitWith EXIT_SUCCESS
  | IOFailurePoint.ziSentinelWrite => ProcessTermination.exitWith EXIT_SUCCESS
  | IOFailurePoint.blobWrite => ProcessTermination.exitWith EXIT_SUCCESS
  | IOFailurePoint.signSeek => ProcessTermination.exitWith EXIT_SUCCESS
  | IOFailurePoint.signReadShort => ProcessTermination.aborted
  | IOFailurePoint.keyFileOpen => ProcessTermination.aborted
  | IOFailurePoint.closeOutput => ProcessTermination.exitWith EXIT_FAILURE

/-- Claim C7 as stated: every detected I/O failure terminates the process
with a non-zero status, with the single exception of the padding-write path. -/
def claimC7AsStated : Prop :=
  ∀ p : IOFailurePoint, p ≠ IOFailurePoint.padWrite →
    terminationNonZero (exitOnFailure p) = true

/-- Counterexample to claim C7 as stated: the header-write failure branch is
not the padding path, yet it exits with status EXIT_SUCCESS = 0 (and the same
holds for every seek and write failure during generation). -/
theorem hss_C7_counterexample :
    exitOnFailure IOFailurePoint.headerWrite = ProcessTermination.exitWith 0
    ∧ IOFailurePoint.headerWrite ≠ IOFailurePoint.padWrite
    ∧ ¬ claimC7AsStated := by
  refine ⟨rfl, by decide, ?_⟩
  intro h
  have := h IOFailurePoint.headerWrite (by decide)
  simp [exitOnFailure, terminationNonZero, EXIT_SUCCESS] at this

/-- Claim C7 amended: every detected I/O failure is reported (a perror tag or
an assert diagnostic) and terminates the process, but only the output-file
open and close failures and the two assert paths in signing (short read, key
file open) end with a non-zero status; every seek and write failure — header
seek and write, descriptor and sentinel writes, blob writes, padding writes,
and the signing seek — exits with success status, not just the single legacy
padding path. -/
theorem hss_C7_io_failure_statuses (p : IOFailurePoint) :
    (errorReportOnFailure p).isEmpty = false
    ∧ (terminationNonZero (exitOnFailure p) = true
        ↔ (p = IOFailurePoint.fopenOutput ∨ p = IOFailurePoint.closeOutput
            ∨ p = IOFailurePoint.signReadShort ∨ p = IOFailurePoint.keyFileOpen)) := by
  cases p <;>
    refine ⟨by decide, by simp [exitOnFailure, terminationNonZero,
      EXIT_SUCCESS, EXIT_FAILURE]⟩
